import Mathlib

/-!
Shallow embedding of the protocol core of `intelino-trainlib-async-py`:
the BLE packet codec (`train_ble_packet.py`), the message decoder
(`message_builder.py`, `messages.py`, `enums/enums.py`) and the
request/response and connection-state behaviour of `train_ble_device.py`.

Modelling conventions:
- Python byte buffers become `List Nat`; the `& 0xFF` coercion in
  `TrainBlePacket.__init__` becomes `% 256`.
- Python floats produced by the decoders (`x / 10`, `x / 100.0`) are
  modelled as exact rationals `ℚ`.
- Python `IntFlag` types (`SnapColorValue`, `SteeringDecision`,
  `_OldSteeringDecision`) accept any integer value (pre-3.11 "KEEP"
  semantics: unknown bits are preserved, no exception), so they are
  modelled as plain `Nat` values with named constants.
- Python `IntEnum` types (`MovementDirection`, `ButtonPress`) raise
  `ValueError` on undefined values, so their conversions are partial.
- Fallible decoding is `Except PyErr _`; `TrainMessageLengthError`
  (a `TrainlibError`, caught by `TrainBlePacket.msg`) and `ValueError`
  (not a `TrainlibError`, hence not caught) are distinguished.
-/

/-- Decidable equality for `Except`, so that concrete decoder results
can be checked by `decide`. -/
instance exceptDecEq {ε α : Type} [DecidableEq ε] [DecidableEq α] :
    DecidableEq (Except ε α)
  | Except.ok x, Except.ok y =>
      if h : x = y then .isTrue (congrArg Except.ok h)
      else .isFalse (fun hh => h (Except.ok.inj hh))
  | Except.error e, Except.error f =>
      if h : e = f then .isTrue (congrArg Except.error h)
      else .isFalse (fun hh => h (Except.error.inj hh))
  | Except.ok _, Except.error _ => .isFalse (fun hh => Except.noConfusion hh)
  | Except.error _, Except.ok _ => .isFalse (fun hh => Except.noConfusion hh)

namespace Intelino

/-- Python exceptions that the decoding paths can raise.
`trainMessageLength` models `TrainMessageLengthError` (a subclass of
`TrainlibError`); `valueError` models the builtin `ValueError` raised by
`IntEnum` conversion on an undefined value (not a `TrainlibError`). -/
inductive PyErr where
  | trainMessageLength
  | valueError
deriving DecidableEq, Repr

/- `SnapColorValue` (IntFlag) constants from `enums/enums.py`.
As an `IntFlag`, conversion keeps arbitrary integer values, so the
carrier is `Nat`. -/
namespace SnapColorValue

def BLACK : Nat := 0
def RED : Nat := 1
def GREEN : Nat := 2
def BLUE : Nat := 4
def YELLOW : Nat := 3
def MAGENTA : Nat := 5
def CYAN : Nat := 6
def WHITE : Nat := 7
def UNKNOWN : Nat := 8

end SnapColorValue

/- `SteeringDecision` (IntFlag) constants from `enums/enums.py`. -/
namespace SteeringDecision

def NONE : Nat := 0
def LEFT : Nat := 1
def RIGHT : Nat := 2
def STRAIGHT : Nat := 4

end SteeringDecision

/- `_OldSteeringDecision` (IntFlag) constants from `enums/enums.py`. -/
namespace OldSteeringDecision

def NONE : Nat := 0
def LEFT : Nat := 1
def RIGHT : Nat := 2
def CENTER : Nat := 3

end OldSteeringDecision

/-- `_convert_from_old_steering_decision` from `enums/enums.py`:
translates the legacy 2-bit steering encoding to the modern one;
`CENTER` (0b011) maps to `STRAIGHT` (0b100), undefined values to `NONE`. -/
def convertFromOldSteeringDecision (decision : Nat) : Nat :=
  if decision = OldSteeringDecision.NONE then SteeringDecision.NONE
  else if decision = OldSteeringDecision.LEFT then SteeringDecision.LEFT
  else if decision = OldSteeringDecision.RIGHT then SteeringDecision.RIGHT
  else if decision = OldSteeringDecision.CENTER then SteeringDecision.STRAIGHT
  else SteeringDecision.NONE

/-- `MovementDirection` (strict IntEnum 0–4) from `enums/enums.py`. -/
inductive MovementDirection where
  | current
  | forward
  | backward
  | stop
  | invert
deriving DecidableEq, Repr

/-- `MovementDirection(value)` conversion: `none` models the `ValueError`
raised by the strict IntEnum on an undefined value. -/
def MovementDirection.ofNat? (value : Nat) : Option MovementDirection :=
  if value = 0 then some .current
  else if value = 1 then some .forward
  else if value = 2 then some .backward
  else if value = 3 then some .stop
  else if value = 4 then some .invert
  else none

/-- `ButtonPress` (strict IntEnum {1, 2}) from `enums/enums.py`. -/
inductive ButtonPress where
  | short
  | long
deriving DecidableEq, Repr

/-- `ButtonPress(value)` conversion; `none` models `ValueError`. -/
def ButtonPress.ofNat? (value : Nat) : Option ButtonPress :=
  if value = 1 then some .short
  else if value = 2 then some .long
  else none

/-- `TrainBlePacket` over a bytearray (`train_ble_packet.py`).
Inbound packets arrive as bytearrays (all entries < 256 by
construction); packets built from plain integer iterables go through
`TrainBlePacket.ofInts` which applies the `& 0xFF` coercion. -/
structure TrainBlePacket where
  data : List Nat
deriving DecidableEq, Repr

/-- `TrainBlePacket.__init__` on a non-bytearray iterable:
`bytearray(int(val) & 0xFF for val in data)`. -/
def TrainBlePacket.ofInts (vals : List Nat) : TrainBlePacket :=
  ⟨vals.map (fun v => v % 256)⟩

/-- `TrainBlePacket.command`: `self.data[0] if self.data else 0`. -/
def TrainBlePacket.command (p : TrainBlePacket) : Nat :=
  p.data.headD 0

/-- `TrainBlePacket.payload`: `self.data[2:] if self.data else bytearray()`. -/
def TrainBlePacket.payload (p : TrainBlePacket) : List Nat :=
  p.data.drop 2

/-- `TrainBlePacket.from_command`: builds
`[command_id, len(payload) (or explicit length), *payload]` and feeds it
through the masking constructor. -/
def TrainBlePacket.from_command (command_id : Nat) (payload : List Nat)
    (length : Option Nat) : TrainBlePacket :=
  TrainBlePacket.ofInts (command_id :: length.getD payload.length :: payload)

/-- `TrainBlePacket.make_hex_string`, modelled at the byte level (the
hex rendering itself is injective and not needed by any claim): selects
`data` or `data[2:]`, and unless `with_garbage` truncates to the declared
length byte (`data[1]`, or 0 when the buffer is shorter than 2 bytes). -/
def TrainBlePacket.makeHexBytes (p : TrainBlePacket) (withHeader : Bool)
    (withGarbage : Bool) : List Nat :=
  let data := if withHeader then p.data else p.data.drop 2
  if withGarbage then data
  else
    let length := if 2 ≤ p.data.length then p.data.getD 1 0 else 0
    data.take length

/-- Big-endian readers for `struct.unpack` fields (used only after the
length guard of `MessageBuilder._unpack` has passed, so the default 0 of
`getD` is never reached in the decoders). -/
def readU8 (payload : List Nat) (i : Nat) : Nat :=
  payload.getD i 0

/-- Big-endian `H` (u16) field. -/
def readU16be (payload : List Nat) (i : Nat) : Nat :=
  readU8 payload i * 256 + readU8 payload (i + 1)

/-- Big-endian `L` (u32) field. -/
def readU32be (payload : List Nat) (i : Nat) : Nat :=
  ((readU8 payload i * 256 + readU8 payload (i + 1)) * 256
      + readU8 payload (i + 2)) * 256 + readU8 payload (i + 3)

/-- `?` (bool) field: `struct` decodes it as `byte != 0`. -/
def readBool (payload : List Nat) (i : Nat) : Bool :=
  readU8 payload i != 0

/-- `SnapCommand` is a tuple of 4 colors (`messages.py`); its tuple
content is a list of `SnapColorValue` values. -/
def SnapCommand := List Nat
deriving DecidableEq, Repr

/-- `SnapCommand.__eq__` against a tuple of colors: the other tuple is
right-padded with three `BLACK` values and truncated to 4 elements
before the underlying tuple comparison. -/
def SnapCommand.eqColors (s : SnapCommand) (o : List Nat) : Bool :=
  (s : List Nat) == (o ++ List.replicate 3 SnapColorValue.BLACK).take 4

/-- `SnapCommand.starts_with` loop:
`for idx, color in enumerate(compare_with): if idx >= len(self) or
self[idx] != color: return False` then `return True`. -/
def SnapCommand.startsWith : SnapCommand → List Nat → Bool
  | _, [] => true
  | ([] : List Nat), _ :: _ => false
  | (a :: s : List Nat), c :: cs => a == c && SnapCommand.startsWith s cs

/-- The decoded message variants of `messages.py` as a tagged union.
Every variant carries its originating packet; event variants carry the
device timestamp. MAC address and UUID store the bytes that
`make_hex_string(with_header=False)` renders. -/
inductive TrainMsg where
  | unknown (raw : TrainBlePacket)
  | malformed (raw : TrainBlePacket)
  | macAddress (raw : TrainBlePacket) (macBytes : List Nat)
  | trainUuid (raw : TrainBlePacket) (uuidBytes : List Nat)
  | versionDetail (raw : TrainBlePacket) (bleApiMajor bleApiMinor : Nat)
      (fwMajor fwMinor fwPatch : Nat)
  | statsLifetimeOdometer (raw : TrainBlePacket) (lifetimeOdometerMeters : ℚ)
  | movement (raw : TrainBlePacket) (direction : MovementDirection)
      (speedCmps : ℚ) (pwm : Nat) (speedControl : Bool)
      (desiredSpeedCmps : ℚ) (pauseTimeMs : Nat)
      (nextSplitDecision : Nat) (lifetimeOdometerMeters : ℚ)
  | eventUnknown (raw : TrainBlePacket) (timestampMs : Nat)
  | eventMovementDirectionChanged (raw : TrainBlePacket) (timestampMs : Nat)
      (direction : MovementDirection)
  | eventLowBattery (raw : TrainBlePacket) (timestampMs : Nat)
  | eventLowBatteryCutOff (raw : TrainBlePacket) (timestampMs : Nat)
  | eventChargingStateChanged (raw : TrainBlePacket) (timestampMs : Nat)
      (isCharging : Bool)
  | eventButtonPressDetected (raw : TrainBlePacket) (timestampMs : Nat)
      (buttonPressType : ButtonPress)
  | eventSnapCommandExecuted (raw : TrainBlePacket) (timestampMs : Nat)
      (snapCounter : Nat) (colors : SnapCommand)
  | eventSnapCommandDetected (raw : TrainBlePacket) (timestampMs : Nat)
      (snapCounter : Nat) (colors : SnapCommand)
  | eventFrontColorChanged (raw : TrainBlePacket) (timestampMs : Nat)
      (color : Nat)
  | eventBackColorChanged (raw : TrainBlePacket) (timestampMs : Nat)
      (color : Nat)
  | eventSplitDecision (raw : TrainBlePacket) (timestampMs : Nat)
      (decision : Nat)
deriving DecidableEq, Repr

namespace MessageBuilder

/-- `MessageBuilder.create_unknown`. -/
def create_unknown (p : TrainBlePacket) : TrainMsg := .unknown p

/-- `MessageBuilder.create_malformed`. -/
def create_malformed (p : TrainBlePacket) : TrainMsg := .malformed p

/-- `MessageBuilder._mac_address`: requires at least 6 payload bytes. -/
def macAddressMsg (p : TrainBlePacket) : Except PyErr TrainMsg :=
  if p.payload.length < 6 then .error .trainMessageLength
  else .ok (.macAddress p (p.makeHexBytes false false))

/-- `MessageBuilder._train_uuid`: requires at least 8 payload bytes. -/
def trainUuidMsg (p : TrainBlePacket) : Except PyErr TrainMsg :=
  if p.payload.length < 8 then .error .trainMessageLength
  else .ok (.trainUuid p (p.makeHexBytes false false))

/-- `MessageBuilder._version_info`: unpacks `>BBBBBBBBB` (9 bytes) and
keeps bytes 4–5 (BLE API version) and 6–8 (firmware version). -/
def versionInfoMsg (p : TrainBlePacket) : Except PyErr TrainMsg :=
  if p.payload.length < 9 then .error .trainMessageLength
  else .ok (.versionDetail p (readU8 p.payload 4) (readU8 p.payload 5)
    (readU8 p.payload 6) (readU8 p.payload 7) (readU8 p.payload 8))

/-- `MessageBuilder._stats_lifetime_odometer`: unpacks `>L` (4 bytes),
maps the sentinel `0xFFFFFFFF` to 0, and scales centimeters to meters. -/
def statsLifetimeOdometerMsg (p : TrainBlePacket) : Except PyErr TrainMsg :=
  if p.payload.length < 4 then .error .trainMessageLength
  else
    let cm := readU32be p.payload 0
    let cm := if cm = 0xFFFFFFFF then 0 else cm
    .ok (.statsLifetimeOdometer p ((cm : ℚ) / 100))

/-- `MessageBuilder._movement`: unpacks `>BHB?HBB?BBLBB` (18 bytes).
Field offsets follow the struct layout: direction at 0, speed (u16) at
1, pwm at 3, speed-control bool at 4, desired speed (u16) at 5, pause
at 7, next decision at 8, lifetime odometer (u32) at 12.
`MovementDirection` conversion can raise `ValueError`. -/
def movementMsg (p : TrainBlePacket) : Except PyErr TrainMsg :=
  if p.payload.length < 18 then .error .trainMessageLength
  else
    let speed_mmps := readU16be p.payload 1
    let pwm := readU8 p.payload 3
    let speed_control := readBool p.payload 4
    let desired_speed_mmps := readU16be p.payload 5
    let pause_time := readU8 p.payload 7
    let next_decision := readU8 p.payload 8
    let cm := readU32be p.payload 12
    let cm := if cm = 0xFFFFFFFF then 0 else cm
    match MovementDirection.ofNat? (readU8 p.payload 0) with
    | none => .error .valueError
    | some direction =>
        .ok (.movement p direction ((speed_mmps : ℚ) / 10) (0xFF - pwm)
          speed_control ((desired_speed_mmps : ℚ) / 10) (pause_time * 10)
          (convertFromOldSteeringDecision next_decision) ((cm : ℚ) / 100))

/-- `MessageBuilder._event_movement_direction_changed`: `>B` at event
payload offset 5. -/
def eventMovementDirectionChangedMsg (ts : Nat) (p : TrainBlePacket) :
    Except PyErr TrainMsg :=
  if p.payload.length < 6 then .error .trainMessageLength
  else
    match MovementDirection.ofNat? (readU8 p.payload 5) with
    | none => .error .valueError
    | some direction => .ok (.eventMovementDirectionChanged p ts direction)

/-- `MessageBuilder._event_charging_state_changed`: `>?` at offset 5. -/
def eventChargingStateChangedMsg (ts : Nat) (p : TrainBlePacket) :
    Except PyErr TrainMsg :=
  if p.payload.length < 6 then .error .trainMessageLength
  else .ok (.eventChargingStateChanged p ts (readBool p.payload 5))

/-- `MessageBuilder._event_button_press_detected`: `>B` at offset 5;
`ButtonPress` conversion can raise `ValueError`. -/
def eventButtonPressDetectedMsg (ts : Nat) (p : TrainBlePacket) :
    Except PyErr TrainMsg :=
  if p.payload.length < 6 then .error .trainMessageLength
  else
    match ButtonPress.ofNat? (readU8 p.payload 5) with
    | none => .error .valueError
    | some press => .ok (.eventButtonPressDetected p ts press)

/-- `MessageBuilder._event_snap_executed`: `>BBBBB` at offset 5; the 4
color bytes are passed verbatim to `SnapColorValue` (IntFlag: value
kept, no mask, no exception). -/
def eventSnapExecutedMsg (ts : Nat) (p : TrainBlePacket) :
    Except PyErr TrainMsg :=
  if p.payload.length < 10 then .error .trainMessageLength
  else .ok (.eventSnapCommandExecuted p ts (readU8 p.payload 5)
    ([readU8 p.payload 6, readU8 p.payload 7, readU8 p.payload 8,
      readU8 p.payload 9] : List Nat))

/-- `MessageBuilder._event_snap_detected`: `>BBBBB` at offset 5; the 4
color bytes are passed verbatim to `SnapColorValue`. -/
def eventSnapDetectedMsg (ts : Nat) (p : TrainBlePacket) :
    Except PyErr TrainMsg :=
  if p.payload.length < 10 then .error .trainMessageLength
  else .ok (.eventSnapCommandDetected p ts (readU8 p.payload 5)
    ([readU8 p.payload 6, readU8 p.payload 7, readU8 p.payload 8,
      readU8 p.payload 9] : List Nat))

/-- `MessageBuilder._event_front_color_changed`: `>LB` at offset 5; the
color byte sits at offset 9. -/
def eventFrontColorChangedMsg (ts : Nat) (p : TrainBlePacket) :
    Except PyErr TrainMsg :=
  if p.payload.length < 10 then .error .trainMessageLength
  else .ok (.eventFrontColorChanged p ts (readU8 p.payload 9))

/-- `MessageBuilder._event_back_color_changed`: `>LB` at offset 5. -/
def eventBackColorChangedMsg (ts : Nat) (p : TrainBlePacket) :
    Except PyErr TrainMsg :=
  if p.payload.length < 10 then .error .trainMessageLength
  else .ok (.eventBackColorChanged p ts (readU8 p.payload 9))

/-- `MessageBuilder._event_split_decision`: `>BL` at offset 5; the
decision byte goes through `SteeringDecision` (IntFlag, value kept). -/
def eventSplitDecisionMsg (ts : Nat) (p : TrainBlePacket) :
    Except PyErr TrainMsg :=
  if p.payload.length < 10 then .error .trainMessageLength
  else .ok (.eventSplitDecision p ts (readU8 p.payload 5))

/-- `MessageBuilder._create_event`: unpacks the common `>BL` header
(event id, timestamp) and dispatches on the event id; an unrecognized
event id yields the unknown-event variant. -/
def createEvent (p : TrainBlePacket) : Except PyErr TrainMsg :=
  if p.payload.length < 5 then .error .trainMessageLength
  else
    let eventId := readU8 p.payload 0
    let ts := readU32be p.payload 1
    if eventId = 0x01 then eventMovementDirectionChangedMsg ts p
    else if eventId = 0x02 then .ok (.eventLowBattery p ts)
    else if eventId = 0x03 then .ok (.eventLowBatteryCutOff p ts)
    else if eventId = 0x04 then eventChargingStateChangedMsg ts p
    else if eventId = 0x05 then eventButtonPressDetectedMsg ts p
    else if eventId = 0x06 then eventSnapExecutedMsg ts p
    else if eventId = 0x07 then eventFrontColorChangedMsg ts p
    else if eventId = 0x08 then eventBackColorChangedMsg ts p
    else if eventId = 0x09 then eventSnapDetectedMsg ts p
    else if eventId = 0x0A then eventSplitDecisionMsg ts p
    else .ok (.eventUnknown p ts)

/-- `MessageBuilder.create`: top-level dispatch on the packet command id
against the fixed table; an unrecognized command id yields the unknown
variant. -/
def create (p : TrainBlePacket) : Except PyErr TrainMsg :=
  if p.command = 0xE0 then createEvent p
  else if p.command = 0x42 then macAddressMsg p
  else if p.command = 0x43 then trainUuidMsg p
  else if p.command = 0x07 then versionInfoMsg p
  else if p.command = 0x3E then statsLifetimeOdometerMsg p
  else if p.command = 0xB7 then movementMsg p
  else .ok (create_unknown p)

end MessageBuilder

/-- `TrainBlePacket.msg`: calls `MessageBuilder.create` and catches
`TrainlibError` (here: `trainMessageLength`), converting it to the
malformed variant; a `ValueError` is not a `TrainlibError` and
propagates to the caller. -/
def TrainBlePacket.msg (p : TrainBlePacket) : Except PyErr TrainMsg :=
  match MessageBuilder.create p with
  | Except.error PyErr.trainMessageLength =>
      Except.ok (MessageBuilder.create_malformed p)
  | r => r

/-- The fixed payload layout size of each command id recognized by the
dispatch table of `MessageBuilder.create`: 0xE0 events need the 5-byte
common header (`>BL`), 0x42 MAC needs 6 bytes, 0x43 UUID needs 8,
0x07 version info needs 9 (`>BBBBBBBBB`), 0x3E lifetime odometer needs
4 (`>L`), 0xB7 movement needs 18 (`>BHB?HBB?BBLBB`); every other
command id is not in the table. -/
def commandFixedLayout (command : Nat) : Option Nat :=
  if command = 0xE0 then some 5
  else if command = 0x42 then some 6
  else if command = 0x43 then some 8
  else if command = 0x07 then some 9
  else if command = 0x3E then some 4
  else if command = 0xB7 then some 18
  else none

/-!
Embedding of the request/response correlator of
`TrainBleDevice.send_command_with_response` (`train_ble_device.py`).
Each call creates a future and subscribes a one-shot pipe
(`ops.first(lambda packet: packet.command == data.command)`) on the
private notification `Subject`. The `Subject` broadcasts every inbound
packet synchronously to every currently active subscription, in
registration order; each one-shot resolves with the first packet
matching its own filter and then disposes itself.
-/

/-- One outstanding `send_command_with_response` wait: the command id
its filter matches, and the future's resolution slot. -/
structure OneShotWait where
  cmdId : Nat
  result : Option TrainBlePacket
deriving DecidableEq, Repr

/-- Registration of a new one-shot subscription on the notification
subject (subscriptions are kept in registration order). -/
def registerWait (subs : List OneShotWait) (cmdId : Nat) : List OneShotWait :=
  subs ++ [⟨cmdId, none⟩]

/-- `Subject.on_next(packet)`: the subject broadcasts the packet to
every active subscription; each still-pending one-shot whose filter
`packet.command == cmdId` matches resolves its future with the packet. -/
def notifyAll (subs : List OneShotWait) (p : TrainBlePacket) :
    List OneShotWait :=
  subs.map fun s =>
    if s.result = none ∧ p.command = s.cmdId then { s with result := some p }
    else s

/-- A sequence of inbound packets delivered through the subject. -/
def notifySequence (subs : List OneShotWait) (ps : List TrainBlePacket) :
    List OneShotWait :=
  ps.foldl notifyAll subs

/-!
Embedding of the connection-state cell of `TrainBleDevice`
(`train_ble_device.py`): a `BehaviorSubject[bool]` initialized to
`False`. `connect(force)` returns early without publishing when already
connected and not forced, otherwise awaits the driver and publishes the
boolean transport result. The public `connection_status` stream pipes
the subject through `distinct_until_changed`; as a `BehaviorSubject` it
replays the current value to a new subscriber.
-/

/-- The values `connect(force)` pushes onto the connection-status
`BehaviorSubject`, given the current `is_connected` value and the
transport result. -/
def connectPublishes (is_connected force result : Bool) : List Bool :=
  if is_connected && !force then [] else [result]

/-- Helper loop for `distinct_until_changed` given the previous value. -/
def distinctFrom (prev : Bool) : List Bool → List Bool
  | [] => []
  | b :: rest => if b = prev then distinctFrom prev rest
                 else b :: distinctFrom b rest

/-- The `distinct_until_changed` operator on the observed stream of
connection states. -/
def distinctUntilChanged : List Bool → List Bool
  | [] => []
  | a :: rest => a :: distinctFrom a rest

/-- What a subscriber of `connection_status` observes: the replayed
current value followed by the subsequent publications, with adjacent
duplicates removed. -/
def observedStates (current : Bool) (published : List Bool) : List Bool :=
  distinctUntilChanged (current :: published)

/-! ## Theorems -/

/-- Masking to one byte is the identity on lists of genuine bytes. -/
theorem map_mod256_eq_self {l : List Nat} (h : ∀ b ∈ l, b ≤ 255) :
    l.map (fun v => v % 256) = l := by
  induction l with
  | nil => rfl
  | cons a t ih =>
    simp only [List.map_cons, List.cons.injEq]
    exact ⟨Nat.mod_eq_of_lt (Nat.lt_succ_of_le (h a (List.mem_cons_self a t))),
      ih fun b hb => h b (List.mem_cons_of_mem a hb)⟩

/-- Claim C1 (amended): `TrainBlePacket.msg` returns the malformed
variant for every packet whose command id is in the dispatch table but
whose payload is shorter than that command's fixed layout, and the
unknown variant for every packet whose command id is not in the table;
it is however not total — enum-valued fields out of range raise an
uncaught `ValueError` (see the counterexample). -/
theorem msg_short_malformed_and_unknown (p : TrainBlePacket) :
    (∀ n, commandFixedLayout p.command = some n → p.payload.length < n →
      TrainBlePacket.msg p = .ok (MessageBuilder.create_malformed p)) ∧
    (commandFixedLayout p.command = none →
      TrainBlePacket.msg p = .ok (MessageBuilder.create_unknown p)) := by
  constructor
  · intro n hn hlen
    unfold commandFixedLayout at hn
    unfold TrainBlePacket.msg MessageBuilder.create
    split_ifs at hn with h1 h2 h3 h4 h5 h6
    · injection hn with hn; subst hn
      rw [if_pos h1]
      unfold MessageBuilder.createEvent
      rw [if_pos hlen]
    · injection hn with hn; subst hn
      rw [if_neg h1, if_pos h2]
      unfold MessageBuilder.macAddressMsg
      rw [if_pos hlen]
    · injection hn with hn; subst hn
      rw [if_neg h1, if_neg h2, if_pos h3]
      unfold MessageBuilder.trainUuidMsg
      rw [if_pos hlen]
    · injection hn with hn; subst hn
      rw [if_neg h1, if_neg h2, if_neg h3, if_pos h4]
      unfold MessageBuilder.versionInfoMsg
      rw [if_pos hlen]
    · injection hn with hn; subst hn
      rw [if_neg h1, if_neg h2, if_neg h3, if_neg h4, if_pos h5]
      unfold MessageBuilder.statsLifetimeOdometerMsg
      rw [if_pos hlen]
    · injection hn with hn; subst hn
      rw [if_neg h1, if_neg h2, if_neg h3, if_neg h4, if_neg h5, if_pos h6]
      unfold MessageBuilder.movementMsg
      rw [if_pos hlen]
  · intro hn
    unfold commandFixedLayout at hn
    split_ifs at hn with h1 h2 h3 h4 h5 h6
    unfold TrainBlePacket.msg MessageBuilder.create
    rw [if_neg h1, if_neg h2, if_neg h3, if_neg h4, if_neg h5, if_neg h6]

/-- Claim C1 witness: a MAC-address packet (0x42) with an empty payload
decodes to the malformed variant, and a packet with the unrecognized
command id 0x01 decodes to the unknown variant. -/
theorem msg_short_malformed_and_unknown_witness :
    TrainBlePacket.msg ⟨[0x42, 0]⟩ =
      .ok (MessageBuilder.create_malformed ⟨[0x42, 0]⟩) ∧
    TrainBlePacket.msg ⟨[0x01, 0]⟩ =
      .ok (MessageBuilder.create_unknown ⟨[0x01, 0]⟩) :=
  ⟨(msg_short_malformed_and_unknown ⟨[0x42, 0]⟩).1 6 (by decide) (by decide),
    (msg_short_malformed_and_unknown ⟨[0x01, 0]⟩).2 (by decide)⟩

/-- Claim C1 counterexample: decoding is not total. A movement-status
packet (0xB7) of full 18-byte layout whose direction byte is 5 (outside
the strict `MovementDirection` IntEnum 0–4) makes `msg` raise a
`ValueError` that is not caught (only `TrainlibError` is). -/
theorem msg_raises_on_bad_direction :
    TrainBlePacket.msg (TrainBlePacket.ofInts
      [0xB7, 18, 5, 0, 0, 0, 0, 0, 0, 0, 0, 0, 0, 0, 0, 0, 0, 0, 0, 0]) =
      .error .valueError := by decide

/-- Claim C2: for every command id in 0..=255 and every payload of
bytes of length at most 253, `from_command` followed by the `command`
and `payload` accessors reproduces the command id and the payload. -/
theorem from_command_roundtrip (command_id : Nat) (payload : List Nat)
    (hc : command_id ≤ 255) (hp : ∀ b ∈ payload, b ≤ 255)
    (hlen : payload.length ≤ 253) :
    (TrainBlePacket.from_command command_id payload none).command = command_id ∧
    (TrainBlePacket.from_command command_id payload none).payload = payload := by
  unfold TrainBlePacket.from_command TrainBlePacket.ofInts
    TrainBlePacket.command TrainBlePacket.payload
  simp only [Option.getD_none, List.map_cons, List.headD_cons, List.drop_succ_cons,
    List.drop_zero]
  exact ⟨Nat.mod_eq_of_lt (Nat.lt_succ_of_le hc), map_mod256_eq_self hp⟩

/-- Claim C2 witness. -/
theorem from_command_roundtrip_witness :
    (TrainBlePacket.from_command 7 [1, 2, 3] none).command = 7 ∧
    (TrainBlePacket.from_command 7 [1, 2, 3] none).payload = [1, 2, 3] :=
  from_command_roundtrip 7 [1, 2, 3] (by decide) (by decide) (by decide)

/-- Claim C3: a movement-status packet (0xB7) with raw fields
direction=1, speed_raw=350 (bytes 1, 94), pwm_raw=55, an arbitrary
speed-control byte, desired_raw=350, pause_raw=0, next_decision_raw=3
(legacy center), odometer_raw=1000 (bytes 0, 0, 3, 232) decodes to
speed_cmps=35, pwm=200, desired_speed_cmps=35, pause_time_ms=0,
next_split_decision=STRAIGHT, lifetime_odometer_meters=10. -/
theorem movement_decode_example (sc : Nat) (hsc : sc ≤ 255) :
    TrainBlePacket.msg
      ⟨[0xB7, 18, 1, 1, 94, 55, sc, 1, 94, 0, 3, 0, 0, 0, 0, 0, 3, 232, 0, 0]⟩ =
    .ok (.movement
      ⟨[0xB7, 18, 1, 1, 94, 55, sc, 1, 94, 0, 3, 0, 0, 0, 0, 0, 3, 232, 0, 0]⟩
      .forward 35 200 (sc != 0) 35 0 SteeringDecision.STRAIGHT 10) := by
  have hpay : (TrainBlePacket.payload
      ⟨[0xB7, 18, 1, 1, 94, 55, sc, 1, 94, 0, 3, 0, 0, 0, 0, 0, 3, 232, 0, 0]⟩) =
      [1, 1, 94, 55, sc, 1, 94, 0, 3, 0, 0, 0, 0, 0, 3, 232, 0, 0] := rfl
  have hcmd : (TrainBlePacket.command
      ⟨[0xB7, 18, 1, 1, 94, 55, sc, 1, 94, 0, 3, 0, 0, 0, 0, 0, 3, 232, 0, 0]⟩) =
      0xB7 := rfl
  unfold TrainBlePacket.msg MessageBuilder.create MessageBuilder.movementMsg
  rw [hpay, hcmd]
  norm_num [readU8, readU16be, readU32be, readBool, MovementDirection.ofNat?,
    convertFromOldSteeringDecision, OldSteeringDecision.NONE,
    OldSteeringDecision.LEFT, OldSteeringDecision.RIGHT,
    OldSteeringDecision.CENTER, SteeringDecision.STRAIGHT, List.getD]

/-- Claim C3 witness (speed-control byte 1). -/
theorem movement_decode_example_witness :
    TrainBlePacket.msg
      ⟨[0xB7, 18, 1, 1, 94, 55, 1, 1, 94, 0, 3, 0, 0, 0, 0, 0, 3, 232, 0, 0]⟩ =
    .ok (.movement
      ⟨[0xB7, 18, 1, 1, 94, 55, 1, 1, 94, 0, 3, 0, 0, 0, 0, 0, 3, 232, 0, 0]⟩
      .forward 35 200 true 35 0 SteeringDecision.STRAIGHT 10) :=
  movement_decode_example 1 (by decide)

/-- Claim C4 counterexample: correlation is not FIFO per command id.
With two one-shot waits for command id 0x42 registered (in this order)
and two distinct matching packets delivered afterwards, the notification
subject broadcasts the first packet to both active subscriptions, so
both futures resolve with the first packet: the second wait does not
receive the second packet, and both waits hold the same packet. -/
theorem concurrent_waits_not_fifo :
    notifySequence (registerWait (registerWait [] 0x42) 0x42)
      [⟨[0x42, 1, 1]⟩, ⟨[0x42, 1, 2]⟩] =
      [⟨0x42, some ⟨[0x42, 1, 1]⟩⟩, ⟨0x42, some ⟨[0x42, 1, 1]⟩⟩] ∧
    (⟨[0x42, 1, 1]⟩ : TrainBlePacket) ≠ ⟨[0x42, 1, 2]⟩ := by decide

/-- Claim C4 (amended): two concurrent `send_command_with_response`
waits for the same command id are both resolved by the first inbound
packet bearing that command id delivered after their registration —
the subject broadcasts it to every active one-shot subscription, so
the waits share one packet instead of pairing FIFO with successive
packets. -/
theorem concurrent_waits_share_first_match (c : Nat) (p1 p2 : TrainBlePacket)
    (h1 : p1.command = c) (h2 : p2.command = c) :
    notifySequence (registerWait (registerWait [] c) c) [p1, p2] =
      [⟨c, some p1⟩, ⟨c, some p1⟩] := by
  simp [notifySequence, registerWait, notifyAll, h1]

/-- Claim C4 witness. -/
theorem concurrent_waits_share_first_match_witness :
    notifySequence (registerWait (registerWait [] 0x42) 0x42)
      [⟨[0x42, 1, 5]⟩, ⟨[0x42, 1, 6]⟩] =
      [⟨0x42, some ⟨[0x42, 1, 5]⟩⟩, ⟨0x42, some ⟨[0x42, 1, 5]⟩⟩] :=
  concurrent_waits_share_first_match 0x42 ⟨[0x42, 1, 5]⟩ ⟨[0x42, 1, 6]⟩
    (by decide) (by decide)

/-- Claim C5 counterexample: `from_command` does not raise for a
command id outside 0..=255 — no encoding error exists in the code; the
`& 0xFF` coercion of `TrainBlePacket.__init__` masks the command id
like any other byte, so command id 256 silently encodes as command 0. -/
theorem from_command_out_of_range_masks :
    TrainBlePacket.from_command 256 [] none = ⟨[0, 0]⟩ ∧
    (TrainBlePacket.from_command 256 [] none).command = 0 := by decide

/-- Claim C5 (amended): packet encoding never fails; `from_command`
masks the command id and every payload byte to 8 bits (`& 0xFF`), so an
out-of-range command id is stored reduced modulo 256 rather than
raising an error. -/
theorem from_command_masks_all_bytes (command_id : Nat) (payload : List Nat)
    (length : Option Nat) :
    (TrainBlePacket.from_command command_id payload length).command =
      command_id % 256 ∧
    (TrainBlePacket.from_command command_id payload length).payload =
      payload.map (fun b => b % 256) := by
  unfold TrainBlePacket.from_command TrainBlePacket.ofInts
    TrainBlePacket.command TrainBlePacket.payload
  exact ⟨rfl, rfl⟩

/-- Claim C6: every 4-color snap signature equal to
(WHITE, RED, BLACK, BLACK) compares equal to the shorter literal tuple
(WHITE, RED) — the shorter tuple is right-padded with BLACK before the
comparison — and `starts_with (WHITE, RED)` holds on it. -/
theorem snap_signature_padding (s : SnapCommand)
    (hs : s = ([SnapColorValue.WHITE, SnapColorValue.RED,
      SnapColorValue.BLACK, SnapColorValue.BLACK] : List Nat)) :
    SnapCommand.eqColors s [SnapColorValue.WHITE, SnapColorValue.RED] = true ∧
    SnapCommand.startsWith s [SnapColorValue.WHITE, SnapColorValue.RED] = true := by
  subst hs; decide

/-- Claim C6 witness. -/
theorem snap_signature_padding_witness :
    SnapCommand.eqColors ([SnapColorValue.WHITE, SnapColorValue.RED,
        SnapColorValue.BLACK, SnapColorValue.BLACK] : List Nat)
      [SnapColorValue.WHITE, SnapColorValue.RED] = true ∧
    SnapCommand.startsWith ([SnapColorValue.WHITE, SnapColorValue.RED,
        SnapColorValue.BLACK, SnapColorValue.BLACK] : List Nat)
      [SnapColorValue.WHITE, SnapColorValue.RED] = true :=
  snap_signature_padding _ rfl

/-- Claim C7: both the standalone lifetime-odometer decoder (0x3E) and
the movement-status decoder (0xB7) map the big-endian u32 odometer
value 0xFFFFFFFF to 0 meters and every other value v to v / 100. -/
theorem odometer_sentinel (b0 b1 b2 b3 : Nat)
    (h0 : b0 ≤ 255) (h1 : b1 ≤ 255) (h2 : b2 ≤ 255) (h3 : b3 ≤ 255) :
    TrainBlePacket.msg ⟨[0x3E, 4, b0, b1, b2, b3]⟩ =
      .ok (.statsLifetimeOdometer ⟨[0x3E, 4, b0, b1, b2, b3]⟩
        (if ((b0 * 256 + b1) * 256 + b2) * 256 + b3 = 0xFFFFFFFF then 0
         else ((((b0 * 256 + b1) * 256 + b2) * 256 + b3 : Nat) : ℚ) / 100)) ∧
    TrainBlePacket.msg
        ⟨[0xB7, 18, 1, 0, 0, 0, 0, 0, 0, 0, 0, 0, 0, 0, b0, b1, b2, b3, 0, 0]⟩ =
      .ok (.movement
        ⟨[0xB7, 18, 1, 0, 0, 0, 0, 0, 0, 0, 0, 0, 0, 0, b0, b1, b2, b3, 0, 0]⟩
        .forward 0 255 false 0 0 SteeringDecision.NONE
        (if ((b0 * 256 + b1) * 256 + b2) * 256 + b3 = 0xFFFFFFFF then 0
         else ((((b0 * 256 + b1) * 256 + b2) * 256 + b3 : Nat) : ℚ) / 100)) := by
  constructor
  · have hpay : (TrainBlePacket.payload ⟨[0x3E, 4, b0, b1, b2, b3]⟩) =
        [b0, b1, b2, b3] := rfl
    have hcmd : (TrainBlePacket.command ⟨[0x3E, 4, b0, b1, b2, b3]⟩) = 0x3E := rfl
    unfold TrainBlePacket.msg MessageBuilder.create
      MessageBuilder.statsLifetimeOdometerMsg
    rw [hpay, hcmd]
    norm_num [readU8, readU32be, List.getD]
    split_ifs with hs
    · norm_num
    · norm_num
  · have hpay : (TrainBlePacket.payload
        ⟨[0xB7, 18, 1, 0, 0, 0, 0, 0, 0, 0, 0, 0, 0, 0, b0, b1, b2, b3, 0, 0]⟩) =
        [1, 0, 0, 0, 0, 0, 0, 0, 0, 0, 0, 0, b0, b1, b2, b3, 0, 0] := rfl
    have hcmd : (TrainBlePacket.command
        ⟨[0xB7, 18, 1, 0, 0, 0, 0, 0, 0, 0, 0, 0, 0, 0, b0, b1, b2, b3, 0, 0]⟩) =
        0xB7 := rfl
    unfold TrainBlePacket.msg MessageBuilder.create MessageBuilder.movementMsg
    rw [hpay, hcmd]
    norm_num [readU8, readU16be, readU32be, readBool, MovementDirection.ofNat?,
      convertFromOldSteeringDecision, OldSteeringDecision.NONE,
      OldSteeringDecision.LEFT, OldSteeringDecision.RIGHT,
      OldSteeringDecision.CENTER, SteeringDecision.NONE, List.getD]
    split_ifs with hs
    · norm_num
    · norm_num

/-- Claim C7 witness at the sentinel bytes 255, 255, 255, 255. -/
theorem odometer_sentinel_witness :
    TrainBlePacket.msg ⟨[0x3E, 4, 255, 255, 255, 255]⟩ =
      .ok (.statsLifetimeOdometer ⟨[0x3E, 4, 255, 255, 255, 255]⟩
        (if ((255 * 256 + 255) * 256 + 255) * 256 + 255 = 0xFFFFFFFF then 0
         else ((((255 * 256 + 255) * 256 + 255) * 256 + 255 : Nat) : ℚ) / 100)) ∧
    TrainBlePacket.msg
        ⟨[0xB7, 18, 1, 0, 0, 0, 0, 0, 0, 0, 0, 0, 0, 0, 255, 255, 255, 255, 0, 0]⟩ =
      .ok (.movement
        ⟨[0xB7, 18, 1, 0, 0, 0, 0, 0, 0, 0, 0, 0, 0, 0, 255, 255, 255, 255, 0, 0]⟩
        .forward 0 255 false 0 0 SteeringDecision.NONE
        (if ((255 * 256 + 255) * 256 + 255) * 256 + 255 = 0xFFFFFFFF then 0
         else ((((255 * 256 + 255) * 256 + 255) * 256 + 255 : Nat) : ℚ) / 100)) :=
  odometer_sentinel 255 255 255 255 (by decide) (by decide) (by decide) (by decide)

/-- Claim C8 counterexample: the connection state of the device layer
is a boolean `BehaviorSubject` — there is no tri-state and no
"connecting" value. A successful `connect()` on a disconnected device
pushes exactly one state (the transport result), so subscribers never
observe an intermediate Connecting state before Connected. -/
theorem connect_publishes_single_state :
    connectPublishes false false true = [true] ∧
    (connectPublishes false false true).length = 1 ∧
    observedStates false (connectPublishes false false true) =
      [false, true] := by decide

/-- Claim C8 (amended): the published connection state is boolean
(connected or not; no distinct connecting state). A `connect()` call on
a disconnected device publishes exactly one state, the boolean transport
result; through the deduplicated `connection_status` stream a subscriber
observes a transition to connected exactly when the transport succeeds,
and no new state when it fails. -/
theorem connect_publishes_transport_result (force result : Bool) :
    connectPublishes false force result = [result] ∧
    observedStates false (connectPublishes false force result) =
      (if result then [false, true] else [false]) := by
  cases force <;> cases result <;> decide

/-- Claim C9 counterexample: the 4 raw color bytes of a snap-detected
event are not masked to their low 3 bits: the byte 15 (0b1111) is
stored verbatim as the color value 15 (the IntFlag keeps unknown bits),
not as 15 % 8 = 7. -/
theorem snap_color_not_masked :
    TrainBlePacket.msg
      (TrainBlePacket.ofInts [0xE0, 10, 0x09, 0, 0, 0, 0, 1, 15, 1, 0, 0]) =
      .ok (.eventSnapCommandDetected
        (TrainBlePacket.ofInts [0xE0, 10, 0x09, 0, 0, 0, 0, 1, 15, 1, 0, 0])
        0 1 ([15, 1, 0, 0] : List Nat)) ∧
    (15 : Nat) ≠ 15 % 8 := by decide

/-- Claim C9 (amended): for every snap-detected or snap-executed event
packet of sufficient payload length, decoding never raises for any
color byte — but the 4 raw color bytes are interpreted verbatim as
IntFlag color values (unknown high bits kept), not masked to 3 bits. -/
theorem snap_colors_verbatim (counter c1 c2 c3 c4 : Nat)
    (hcnt : counter ≤ 255) (h1 : c1 ≤ 255) (h2 : c2 ≤ 255)
    (h3 : c3 ≤ 255) (h4 : c4 ≤ 255) :
    TrainBlePacket.msg ⟨[0xE0, 10, 0x09, 0, 0, 0, 0, counter, c1, c2, c3, c4]⟩ =
      .ok (.eventSnapCommandDetected
        ⟨[0xE0, 10, 0x09, 0, 0, 0, 0, counter, c1, c2, c3, c4]⟩ 0 counter
        ([c1, c2, c3, c4] : List Nat)) ∧
    TrainBlePacket.msg ⟨[0xE0, 10, 0x06, 0, 0, 0, 0, counter, c1, c2, c3, c4]⟩ =
      .ok (.eventSnapCommandExecuted
        ⟨[0xE0, 10, 0x06, 0, 0, 0, 0, counter, c1, c2, c3, c4]⟩ 0 counter
        ([c1, c2, c3, c4] : List Nat)) := by
  constructor
  · have hpay : (TrainBlePacket.payload
        ⟨[0xE0, 10, 0x09, 0, 0, 0, 0, counter, c1, c2, c3, c4]⟩) =
        [0x09, 0, 0, 0, 0, counter, c1, c2, c3, c4] := rfl
    have hcmd : (TrainBlePacket.command
        ⟨[0xE0, 10, 0x09, 0, 0, 0, 0, counter, c1, c2, c3, c4]⟩) = 0xE0 := rfl
    unfold TrainBlePacket.msg MessageBuilder.create MessageBuilder.createEvent
      MessageBuilder.eventSnapDetectedMsg
    rw [hpay, hcmd]
    norm_num [readU8, readU32be, List.getD]
  · have hpay : (TrainBlePacket.payload
        ⟨[0xE0, 10, 0x06, 0, 0, 0, 0, counter, c1, c2, c3, c4]⟩) =
        [0x06, 0, 0, 0, 0, counter, c1, c2, c3, c4] := rfl
    have hcmd : (TrainBlePacket.command
        ⟨[0xE0, 10, 0x06, 0, 0, 0, 0, counter, c1, c2, c3, c4]⟩) = 0xE0 := rfl
    unfold TrainBlePacket.msg MessageBuilder.create MessageBuilder.createEvent
      MessageBuilder.eventSnapExecutedMsg
    rw [hpay, hcmd]
    norm_num [readU8, readU32be, List.getD]

/-- Claim C9 witness (color bytes 15, 1, 0, 0). -/
theorem snap_colors_verbatim_witness :
    TrainBlePacket.msg ⟨[0xE0, 10, 0x09, 0, 0, 0, 0, 2, 15, 1, 0, 0]⟩ =
      .ok (.eventSnapCommandDetected
        ⟨[0xE0, 10, 0x09, 0, 0, 0, 0, 2, 15, 1, 0, 0]⟩ 0 2
        ([15, 1, 0, 0] : List Nat)) ∧
    TrainBlePacket.msg ⟨[0xE0, 10, 0x06, 0, 0, 0, 0, 2, 15, 1, 0, 0]⟩ =
      .ok (.eventSnapCommandExecuted
        ⟨[0xE0, 10, 0x06, 0, 0, 0, 0, 2, 15, 1, 0, 0]⟩ 0 2
        ([15, 1, 0, 0] : List Nat)) :=
  snap_colors_verbatim 2 15 1 0 0 (by decide) (by decide) (by decide)
    (by decide) (by decide)

/-- Claim C10: for every 4-color snap signature `s` and tuple `t` of
color values, `s == t` holds iff `s` equals the first 4 elements of `t`
right-padded with three BLACK values; in particular for `t` longer than
4 elements, `s == t` holds iff `s` equals the first 4 elements of `t` —
the extra elements are silently truncated away. -/
theorem snap_eq_characterization (s : SnapCommand) (t : List Nat)
    (hs : (s : List Nat).length = 4) :
    (SnapCommand.eqColors s t = true ↔
      (s : List Nat) = (t ++ List.replicate 3 SnapColorValue.BLACK).take 4) ∧
    (4 < t.length →
      (SnapCommand.eqColors s t = true ↔ (s : List Nat) = t.take 4)) := by
  have base : SnapCommand.eqColors s t = true ↔
      (s : List Nat) = (t ++ List.replicate 3 SnapColorValue.BLACK).take 4 := by
    unfold SnapCommand.eqColors
    exact beq_iff_eq
  refine ⟨base, fun ht => ?_⟩
  rw [base, List.take_append_of_le_length (Nat.le_of_lt ht)]

/-- Claim C10 witness: a 5-element tuple whose first 4 elements match
compares equal; the 5th element is ignored. -/
theorem snap_eq_characterization_witness :
    (SnapCommand.eqColors ([7, 1, 0, 0] : List Nat) [7, 1, 0, 0, 3] = true ↔
      ([7, 1, 0, 0] : List Nat) =
        (([7, 1, 0, 0, 3] : List Nat) ++
          List.replicate 3 SnapColorValue.BLACK).take 4) ∧
    (4 < ([7, 1, 0, 0, 3] : List Nat).length →
      (SnapCommand.eqColors ([7, 1, 0, 0] : List Nat) [7, 1, 0, 0, 3] = true ↔
        ([7, 1, 0, 0] : List Nat) = ([7, 1, 0, 0, 3] : List Nat).take 4)) :=
  snap_eq_characterization ([7, 1, 0, 0] : List Nat) [7, 1, 0, 0, 3] (by decide)

end Intelino
